import Mathlib

/-!
Verification development for the SyntheticDataGen repository
(a synthetic-data generation platform: an asynchronous data-generation
job pipeline with a Next.js dashboard frontend).

The repository sources available here contain the frontend (Next.js
pages and components) and the project README files, which document the
FastAPI/Celery backend (its API surface, configuration defaults,
data-type field lists, and job lifecycle).  The backend Python sources
themselves are not present, so the core pipeline (submission
validation, the job state machine, the worker loop, the record
generator, the format writers, and the artifact store with its
retention sweep) is modelled from the specification and from the
README documentation; everything taken from the frontend TypeScript
(status-style fallback tables, the template editor's save handler) is
translated directly from that code.
-/

namespace SynthDataGen

/-! ## Job data model -/

/-- Job lifecycle states.  Modelled from the spec: states
`pending → queued → processing → {completed | failed}` (spec section 4.4),
plus the terminal `cancelled` state reached by the `cancel` transition
(spec section 5). -/
inductive JobStatus where
  | pending
  | queued
  | processing
  | completed
  | failed
  | cancelled
deriving DecidableEq, Repr

/-- A generation job record.  Modelled from the spec (section 3) and the
README job-status payload: requested data type, record count, output
format, current status and integer progress percentage. -/
structure Job where
  dataType : String
  recordCount : Nat
  outputFormat : String
  status : JobStatus
  progress : Nat
deriving DecidableEq, Repr

/-! ## Configuration and submission -/

/-- Record-count bounds consumed by the core.  From the README
configuration table: `MIN_RECORDS` and `MAX_RECORDS`. -/
structure Configuration where
  minRecords : Nat
  maxRecords : Nat
deriving DecidableEq, Repr

/-- Default configuration from the README: `MIN_RECORDS = 100`,
`MAX_RECORDS = 1000000`. -/
def defaultConfiguration : Configuration :=
  { minRecords := 100, maxRecords := 1000000 }

/-- Output formats recognised by the system.  From the README
(`POST /api/generate` request body): `output_format` is "csv" or "json". -/
def recognizedFormats : List String := ["csv", "json"]

/-- Whether an output-format string is recognised. -/
def isRecognizedFormat (f : String) : Bool := recognizedFormats.contains f

/-- Submission-time error.  Modelled from the spec (section 7):
`InvalidRequest` is returned synchronously and never creates a job. -/
inductive SubmitError where
  | InvalidRequest
deriving DecidableEq, Repr

/-- The job created for an admitted submission: status `pending`,
progress 0.  Modelled from the spec (section 2 data flow). -/
def mkJob (dataType : String) (count : Nat) (fmt : String) : Job :=
  { dataType := dataType, recordCount := count, outputFormat := fmt,
    status := JobStatus.pending, progress := 0 }

/-- Modelled from the spec: `submit(schema_kind_or_definition,
record_count, output_format)` (backend `POST /api/generate` route, not
present in the sources).  Fails with `InvalidRequest` if `record_count`
is outside the configured [min, max] bound or `output_format` is
unrecognized; otherwise a job is created in `pending`. -/
def submit (cfg : Configuration) (dataType : String) (count : Nat)
    (fmt : String) : Except SubmitError Job :=
  if count < cfg.minRecords then Except.error SubmitError.InvalidRequest
  else if cfg.maxRecords < count then Except.error SubmitError.InvalidRequest
  else if isRecognizedFormat fmt then Except.ok (mkJob dataType count fmt)
  else Except.error SubmitError.InvalidRequest

/-! ## Job state machine -/

/-- Error for illegal lifecycle transitions (spec section 4.4). -/
inductive TransitionError where
  | InvalidTransition
deriving DecidableEq, Repr

/-- Modelled from the spec (sections 4.4 and 5): the legal transitions
of the job state machine.  The forward chain is
`pending → queued → processing → {completed | failed}`; `pending →
processing` is the collapsed admission step the spec allows when the
queue has no separate admission; `cancel` moves any of
`pending`/`queued`/`processing` to the terminal `cancelled` state. -/
def allowedTransition : JobStatus → JobStatus → Bool
  | JobStatus.pending, JobStatus.queued => true
  | JobStatus.pending, JobStatus.processing => true
  | JobStatus.queued, JobStatus.processing => true
  | JobStatus.processing, JobStatus.completed => true
  | JobStatus.processing, JobStatus.failed => true
  | JobStatus.pending, JobStatus.cancelled => true
  | JobStatus.queued, JobStatus.cancelled => true
  | JobStatus.processing, JobStatus.cancelled => true
  | _, _ => false

/-- Modelled from the spec: the transition primitive of the job state
machine; it rejects illegal transitions with `InvalidTransition`. -/
def transition (j : Job) (t : JobStatus) : Except TransitionError Job :=
  if allowedTransition j.status t then Except.ok { j with status := t }
  else Except.error TransitionError.InvalidTransition

/-! ## Worker-driven job execution

Modelled from the spec (sections 4.5 and 5): a single worker owns a
job's mutable fields; it iterates the record generator in chunks,
writes each chunk, and after every chunk updates the job's progress as
`records_written / requested_count * 100`.  The state below carries the
worker's cumulative written-record counter next to the job status and
progress; the operations are the only mutators of these fields. -/

/-- The per-job state owned by the worker: lifecycle status, records
written so far, and the published progress percentage. -/
structure WState where
  status : JobStatus
  written : Nat
  progress : Nat
deriving DecidableEq, Repr

/-- Progress percentage after `written` of `total` records
(spec section 4.5: `records_written / requested_count * 100`,
modelled at integer-percent granularity). -/
def progressOf (written total : Nat) : Nat := written * 100 / total

/-- The operations on a job's state.  Modelled from the spec:
`enqueue` hands the pending job to the queue, `start` is worker pickup,
`writeChunk k` writes a chunk of `k` records and updates progress,
`finish` closes the artifact, `failJob` records an error, and
`cancelJob` is the caller-requested cancel transition. -/
inductive WOp where
  | enqueue
  | start
  | writeChunk (k : Nat)
  | finish
  | failJob
  | cancelJob
deriving DecidableEq, Repr

/-- Modelled from the spec: one state-machine step for a job with
requested count `total`.  Illegal steps yield `none`. -/
def step (total : Nat) (s : WState) : WOp → Option WState
  | WOp.enqueue =>
      if s.status = JobStatus.pending then
        some { s with status := JobStatus.queued }
      else none
  | WOp.start =>
      if s.status = JobStatus.pending ∨ s.status = JobStatus.queued then
        some { s with status := JobStatus.processing }
      else none
  | WOp.writeChunk k =>
      if s.status = JobStatus.processing ∧ s.written + k ≤ total then
        some { status := JobStatus.processing, written := s.written + k,
               progress := progressOf (s.written + k) total }
      else none
  | WOp.finish =>
      if s.status = JobStatus.processing ∧ s.written = total then
        some { s with status := JobStatus.completed, progress := 100 }
      else none
  | WOp.failJob =>
      if s.status = JobStatus.processing then
        some { s with status := JobStatus.failed }
      else none
  | WOp.cancelJob =>
      if s.status = JobStatus.pending ∨ s.status = JobStatus.queued ∨
          s.status = JobStatus.processing then
        some { s with status := JobStatus.cancelled }
      else none

/-- The state of a freshly created job: `pending`, nothing written,
progress 0. -/
def initialWState : WState :=
  { status := JobStatus.pending, written := 0, progress := 0 }

/-- Run a list of operations from a state, failing if any step is
illegal. -/
def runOps (total : Nat) (s : WState) : List WOp → Option WState
  | [] => some s
  | op :: ops => (step total s op).bind fun s1 => runOps total s1 ops

/-- The state invariant tied to a requested count `total`: the written
counter never exceeds the request, nothing is written before pickup,
and the published progress is the percentage formula (pinned at 100
once completed). -/
def WInv (total : Nat) (s : WState) : Prop :=
  s.written ≤ total ∧
  ((s.status = JobStatus.pending ∨ s.status = JobStatus.queued) →
    s.written = 0) ∧
  (if s.status = JobStatus.completed then s.progress = 100
   else s.progress = progressOf s.written total)

/-! ## Schemas and the record generator

Modelled from the spec (sections 3 and 4.2): a schema is a named,
ordered list of field descriptors; the record generator produces a
finite sequence of records in which the record at a given index is
fully determined by `(schema, seed, index)`.  The backend generators
(`app/services/generators/`) are not present in the sources; the
deterministic per-index derivation below follows the spec's
restartability contract.  Field values are derived through a fixed
integer mixing function, so generation is pure and total. -/

/-- The closed set of semantic field types (spec section 3), restricted
to the variants exercised by the README data-type field lists. -/
inductive SemType where
  | identifier
  | shortText
  | email
  | intInRange (lo hi : Nat)
  | boolean
  | date
deriving DecidableEq, Repr

/-- One field descriptor: a name and a semantic type. -/
structure Field where
  name : String
  ftype : SemType
deriving DecidableEq, Repr

/-- A schema: an ordered list of field descriptors. -/
structure Schema where
  fields : List Field
deriving DecidableEq, Repr

/-- A deterministic integer mixing function keying a field's raw
randomness off `(seed, record index, field position)`.  Modelled from
the spec's restartability contract: the value depends on nothing else. -/
def mix (seed idx fieldIdx : Nat) : Nat :=
  ((seed + 1) * 2654435761 + idx * 40503 + fieldIdx * 97 + 12345) % 4294967296

/-- Render one generated scalar from a semantic type and its raw
randomness. -/
def genValue : SemType → Nat → String
  | SemType.identifier, h => "id-" ++ toString h
  | SemType.shortText, h => "text" ++ toString (h % 1000)
  | SemType.email, h => "user" ++ toString (h % 100000) ++ "@example.com"
  | SemType.intInRange lo hi, h => toString (lo + h % (hi - lo + 1))
  | SemType.boolean, h => if h % 2 = 0 then "true" else "false"
  | SemType.date, h =>
      toString (1970 + h % 55) ++ "-" ++ toString (1 + h % 12) ++ "-" ++
        toString (1 + h % 28)

/-- A record: the ordered list of (field name, generated value) pairs. -/
def Record := List (String × String)
deriving instance DecidableEq for Record

/-- Generate the record at `idx` from `(schema, seed, idx)` alone. -/
def genRecord (sch : Schema) (seed idx : Nat) : Record :=
  sch.fields.enum.map fun p => (p.2.name, genValue p.2.ftype (mix seed idx p.1))

/-- Modelled from the spec: `generate(schema, count, seed)` — the
finite sequence of `count` records. -/
def generate (sch : Schema) (count seed : Nat) : List Record :=
  (List.range count).map (genRecord sch seed)

/-- The built-in User/Person schema.  Field names and declared order
are from the README ("Data Types — User/Person Data"). -/
def personSchema : Schema :=
  { fields :=
      [ { name := "id", ftype := SemType.identifier },
        { name := "first_name", ftype := SemType.shortText },
        { name := "last_name", ftype := SemType.shortText },
        { name := "full_name", ftype := SemType.shortText },
        { name := "email", ftype := SemType.email },
        { name := "phone", ftype := SemType.shortText },
        { name := "date_of_birth", ftype := SemType.date },
        { name := "age", ftype := SemType.intInRange 18 100 },
        { name := "gender", ftype := SemType.shortText },
        { name := "street_address", ftype := SemType.shortText },
        { name := "city", ftype := SemType.shortText },
        { name := "state", ftype := SemType.shortText },
        { name := "postal_code", ftype := SemType.shortText },
        { name := "country", ftype := SemType.shortText },
        { name := "username", ftype := SemType.shortText },
        { name := "job_title", ftype := SemType.shortText },
        { name := "company", ftype := SemType.shortText },
        { name := "salary", ftype := SemType.intInRange 20000 250000 },
        { name := "created_at", ftype := SemType.date },
        { name := "is_active", ftype := SemType.boolean } ] }

/-! ## Format writers

Modelled from the spec (section 4.3): one streaming writer per output
format.  An artifact is represented as its list of output lines. -/

/-- The CSV header line: the schema's field names in declared order. -/
def csvHeader (sch : Schema) : String :=
  String.intercalate "," (sch.fields.map Field.name)

/-- One CSV data row for a record. -/
def csvRow (r : Record) : String :=
  String.intercalate "," (r.map Prod.snd)

/-- The CSV writer: a header line, then one data row per record. -/
def writeCSV (sch : Schema) (records : List Record) : List String :=
  csvHeader sch :: records.map csvRow

/-- One JSON object line for a record. -/
def jsonRow (r : Record) : String :=
  "\x7b" ++
    String.intercalate ", "
      (r.map fun p => "\x22" ++ p.1 ++ "\x22: \x22" ++ p.2 ++ "\x22") ++
  "\x7d"

/-- The JSON writer: one object per record inside a top-level array. -/
def writeJSON (_sch : Schema) (records : List Record) : List String :=
  ("[" ++ String.intercalate ", " (records.map jsonRow) ++ "]") :: []

/-- The writer registry: one writer implementation per recognised
output format (README: "csv" and "json"), none otherwise. -/
def formatWriter (f : String) : Option (Schema → List Record → List String) :=
  if f = "csv" then some writeCSV
  else if f = "json" then some writeJSON
  else none

/-! ## Artifact store, status polling and retention

Modelled from the spec (sections 4.6 and 6): jobs and artifacts live in
two key spaces keyed by job id; `fetch_artifact` fails with `NotReady`
when the job is not `completed` and with `Gone` when the artifact was
already swept; the retention sweep deletes artifacts only and never
touches job records. -/

/-- An artifact: the durable output, represented by its lines. -/
def Artifact := List String
deriving instance DecidableEq for Artifact

/-- The persisted state: a job table and an artifact keyspace, both
keyed by job id. -/
structure SystemState where
  jobs : Nat → Option Job
  artifacts : Nat → Option Artifact

/-- Lookup failures surfaced directly to the caller (spec section 7). -/
inductive FetchError where
  | NotFound
  | NotReady
  | Gone
deriving DecidableEq, Repr

/-- Modelled from the spec: `get_status(job_id)` — status and progress,
`NotFound` for an unknown job id. -/
def getStatus (st : SystemState) (id : Nat) :
    Except FetchError (JobStatus × Nat) :=
  match st.jobs id with
  | none => Except.error FetchError.NotFound
  | some j => Except.ok (j.status, j.progress)

/-- Modelled from the spec: `fetch_artifact(job_id)` — `NotReady` if the
job's status is not `completed`, `Gone` if the artifact was already
swept. -/
def fetchArtifact (st : SystemState) (id : Nat) :
    Except FetchError Artifact :=
  match st.jobs id with
  | none => Except.error FetchError.NotFound
  | some j =>
      if j.status = JobStatus.completed then
        match st.artifacts id with
        | none => Except.error FetchError.Gone
        | some a => Except.ok a
      else Except.error FetchError.NotReady

/-- Modelled from the spec: the retention sweep deletes the artifacts
the age predicate marks as expired; the job table is untouched. -/
def sweep (st : SystemState) (expired : Nat → Bool) : SystemState :=
  { jobs := st.jobs,
    artifacts := fun id => if expired id then none else st.artifacts id }

/-! ## The worker chunk loop with cancellation

Modelled from the spec (sections 4.5 and 5): the worker processes a job
chunk by chunk and checks the cancellation flag between chunks; when it
observes the flag it aborts, discarding partial output, so no artifact
is created.  `cancelAt i` is whether the flag is observed set at the
i-th chunk boundary. -/

/-- Run the remaining `n` chunks starting at boundary index `i`.  The
flag is polled before each chunk; on the final chunk boundary passing
without cancellation the artifact `art` is finalized and the job
completes. -/
def workerRun (cancelAt : Nat → Bool) (art : Artifact) :
    Nat → Nat → JobStatus × Option Artifact
  | 0, _ => (JobStatus.completed, some art)
  | Nat.succ n, i =>
      if cancelAt i then (JobStatus.cancelled, none)
      else workerRun cancelAt art n (i + 1)

/-! ## Frontend: job status styling

Translated from the frontend sources.  `JobCard` (history page) builds a
`statusConfig` object literal keyed by status string and selects
`statusConfig[job.status] || statusConfig.pending`; `JobRow` (dashboard
page) does the same with a smaller config.  JavaScript bracket access
on an object literal walks the prototype chain: a key that is one of
the literal's own four keys yields its entry, a key naming an
`Object.prototype` member yields that inherited member (a function, or
for `__proto__` an object — in either case truthy, so `|| fallback`
does not trigger), and any other key yields `undefined`, the only
falsy outcome, which alone falls back to the pending entry. -/

/-- Property names that JavaScript bracket access reaches through the
prototype chain on a plain object literal when the key is not an own
property: the `Object.prototype` members. -/
def objectPrototypeMembers : List String :=
  ["constructor", "hasOwnProperty", "isPrototypeOf",
   "propertyIsEnumerable", "toLocaleString", "toString", "valueOf",
   "__defineGetter__", "__defineSetter__", "__lookupGetter__",
   "__lookupSetter__", "__proto__"]

/-- The result of a JavaScript bracket lookup on a style-config object
literal: an own-property style entry, a truthy member inherited from
`Object.prototype`, or `undefined`. -/
inductive Lookup (α : Type) where
  | style (entry : α)
  | inheritedMember (name : String)
  | undef
deriving DecidableEq, Repr

/-- One entry of `JobCard`'s `statusConfig`: the icon component name and
the three Tailwind class strings. -/
structure CardStyle where
  icon : String
  color : String
  bgColor : String
  borderColor : String
deriving DecidableEq, Repr

/-- The `pending` entry of `JobCard.statusConfig`. -/
def cardPendingStyle : CardStyle :=
  { icon := "Clock", color := "text-blue-400", bgColor := "bg-blue-500/10",
    borderColor := "border-blue-500/30" }

/-- The bracket lookup `statusConfig[s]` on the `statusConfig` object
literal of `JobCard` (history page, src/unnamed/part_000 lines 56-86):
the four own keys yield their entries, a key naming an
`Object.prototype` member yields the inherited member, anything else is
`undefined`. -/
def jobCardStatusConfig (s : String) : Lookup CardStyle :=
  if s = "completed" then
    Lookup.style
      { icon := "AnimatedCheckmark", color := "text-green-400",
        bgColor := "bg-green-500/10", borderColor := "border-green-500/30" }
  else if s = "processing" then
    Lookup.style
      { icon := "LoadingSpinner", color := "text-yellow-400",
        bgColor := "bg-yellow-500/10", borderColor := "border-yellow-500/30" }
  else if s = "pending" then Lookup.style cardPendingStyle
  else if s = "failed" then
    Lookup.style
      { icon := "AnimatedCross", color := "text-red-400",
        bgColor := "bg-red-500/10", borderColor := "border-red-500/30" }
  else if objectPrototypeMembers.contains s then Lookup.inheritedMember s
  else Lookup.undef

/-- The selected configuration in `JobCard`:
`statusConfig[job.status] || statusConfig.pending`.  `undefined` is the
only falsy lookup result, so only it falls back to the pending entry;
an inherited `Object.prototype` member is truthy and is selected
as-is. -/
def jobCardConfig (status : String) : Lookup CardStyle :=
  match jobCardStatusConfig status with
  | Lookup.undef => Lookup.style cardPendingStyle
  | v => v

/-- One entry of `JobRow`'s `statusConfig`: a badge color name and the
optional pulse flag. -/
structure RowStyle where
  color : String
  pulse : Option Bool
deriving DecidableEq, Repr

/-- The `pending` entry of `JobRow.statusConfig`. -/
def rowPendingStyle : RowStyle := { color := "default", pulse := some true }

/-- The bracket lookup `statusConfig[s]` on the `statusConfig` object
literal of `JobRow` (dashboard page,
src/frontend/app/dashboard/generate/page.tsx lines 917-922): the four
own keys yield their entries, a key naming an `Object.prototype` member
yields the inherited member, anything else is `undefined`. -/
def jobRowStatusConfig (s : String) : Lookup RowStyle :=
  if s = "completed" then Lookup.style { color := "success", pulse := none }
  else if s = "processing" then
    Lookup.style { color := "warning", pulse := some true }
  else if s = "pending" then Lookup.style rowPendingStyle
  else if s = "failed" then Lookup.style { color := "error", pulse := none }
  else if objectPrototypeMembers.contains s then Lookup.inheritedMember s
  else Lookup.undef

/-- The selected configuration in `JobRow`:
`statusConfig[job.status] || statusConfig.pending`, with the same
truthiness semantics as `jobCardConfig`. -/
def jobRowConfig (status : String) : Lookup RowStyle :=
  match jobRowStatusConfig status with
  | Lookup.undef => Lookup.style rowPendingStyle
  | v => v

/-! ## Frontend: the new-template editor's save handler

Translated from `handleSave` in
src/frontend/app/dashboard/templates/new/page.tsx (lines 334-352).
`JSON.parse` is the browser's JSON parser; it is passed in as a
function returning `none` exactly when the parse throws. -/

/-- JavaScript `String.prototype.trim` as used by `handleSave`
(`name.trim()`): strip whitespace from both ends of the string. -/
def jsTrim (s : String) : String :=
  String.mk
    ((s.data.dropWhile Char.isWhitespace).reverse.dropWhile
      Char.isWhitespace).reverse

/-- The component state `handleSave` reads and writes. -/
structure EditorState where
  name : String
  description : String
  dataType : String
  schema : String
  validationError : Option String
deriving DecidableEq, Repr

/-- The payload handed to `createMutation.mutate` (a `createTemplate`
request): name, description, data type, and the parsed schema. -/
structure TemplatePayload (α : Type) where
  name : String
  description : String
  dataType : String
  schema : α
deriving DecidableEq, Repr

/-- The outcome of one `handleSave` call: the request it issued, if
any, and the resulting editor state. -/
structure SaveResult (α : Type) where
  request : Option (TemplatePayload α)
  state : EditorState
deriving DecidableEq, Repr

/-- Translated from `handleSave`: an empty trimmed name returns early
(a toast only — no request, state unchanged); otherwise the schema text
is parsed, and on success `createMutation.mutate` is called with the
payload, while on a parse failure no request is made and
`setValidationError` records "Invalid JSON syntax". -/
def handleSave (parseJSON : String → Option α) (st : EditorState) :
    SaveResult α :=
  if jsTrim st.name = "" then { request := none, state := st }
  else
    match parseJSON st.schema with
    | some parsed =>
        { request := some { name := st.name, description := st.description,
                            dataType := st.dataType, schema := parsed },
          state := st }
    | none =>
        { request := none,
          state := { st with validationError := some "Invalid JSON syntax" } }

/-- A concrete stand-in for the browser's `JSON.parse` used to
instantiate `handleSave` on concrete inputs: it accepts exactly the
text "null". -/
def parseNullOnly (s : String) : Option Unit :=
  if s = "null" then some () else none

/-! ## Concrete fixtures used to instantiate the theorems -/

/-- A concrete completed job. -/
def doneJob : Job :=
  { dataType := "user", recordCount := 500, outputFormat := "csv",
    status := JobStatus.completed, progress := 100 }

/-- A concrete cancelled job. -/
def cancelledJob : Job :=
  { dataType := "user", recordCount := 500, outputFormat := "csv",
    status := JobStatus.cancelled, progress := 40 }

/-- A concrete processing job. -/
def runningJob : Job :=
  { dataType := "user", recordCount := 500, outputFormat := "csv",
    status := JobStatus.processing, progress := 40 }

/-- A concrete persisted state: job 1 completed with an artifact, job 2
still processing with none, job 3 cancelled with none. -/
def sampleState : SystemState :=
  { jobs := fun id =>
      if id = 1 then some doneJob
      else if id = 2 then some runningJob
      else if id = 3 then some cancelledJob
      else none,
    artifacts := fun id => if id = 1 then some ["a,b", "1,2"] else none }

/-! # Theorems -/

/-! ## Helper lemmas -/

theorem progressOf_zero (total : Nat) : progressOf 0 total = 0 := by
  simp [progressOf]

theorem progressOf_mono {w1 w2 : Nat} (total : Nat) (h : w1 ≤ w2) :
    progressOf w1 total ≤ progressOf w2 total :=
  Nat.div_le_div_right (Nat.mul_le_mul_right _ h)

theorem progressOf_le_100 {w total : Nat} (h : w ≤ total) :
    progressOf w total ≤ 100 := by
  rcases Nat.eq_zero_or_pos total with h0 | hpos
  · subst h0
    simp_all [progressOf]
  · calc progressOf w total ≤ progressOf total total := progressOf_mono total h
    _ = 100 := by
        simp [progressOf, Nat.mul_div_cancel_left, Nat.mul_comm total 100,
          Nat.mul_div_assoc, Nat.div_self hpos]

theorem winv_initial (total : Nat) : WInv total initialWState := by
  refine ⟨Nat.zero_le _, fun _ => rfl, ?_⟩
  simp [initialWState, WInv, progressOf]

theorem winv_step {total : Nat} {s s1 : WState} {op : WOp}
    (hinv : WInv total s) (hs : step total s op = some s1) :
    WInv total s1 := by
  obtain ⟨hw, hz, hp⟩ := hinv
  unfold WInv
  cases op <;> simp only [step] at hs
  case enqueue =>
    split at hs
    · obtain rfl := Option.some.inj hs
      rename_i hpend
      refine ⟨hw, fun _ => hz (Or.inl hpend), ?_⟩
      rw [hpend] at hp
      simpa using hp
    · exact absurd hs (by simp)
  case start =>
    split at hs
    · obtain rfl := Option.some.inj hs
      rename_i hpq
      refine ⟨hw, fun h => by simp at h, ?_⟩
      rcases hpq with h | h <;> rw [h] at hp <;> simpa using hp
    · exact absurd hs (by simp)
  case writeChunk k =>
    split at hs
    · obtain rfl := Option.some.inj hs
      rename_i hcond
      exact ⟨hcond.2, fun h => by simp at h, by simp⟩
    · exact absurd hs (by simp)
  case finish =>
    split at hs
    · obtain rfl := Option.some.inj hs
      rename_i hcond
      refine ⟨hw, fun h => by simp at h, by simp⟩
    · exact absurd hs (by simp)
  case failJob =>
    split at hs
    · obtain rfl := Option.some.inj hs
      rename_i hproc
      refine ⟨hw, fun h => by simp at h, ?_⟩
      rw [hproc] at hp
      simpa using hp
    · exact absurd hs (by simp)
  case cancelJob =>
    split at hs
    · obtain rfl := Option.some.inj hs
      rename_i hcond
      refine ⟨hw, fun h => by simp at h, ?_⟩
      rcases hcond with h | h | h <;> rw [h] at hp <;> simpa using hp
    · exact absurd hs (by simp)

theorem winv_runOps {total : Nat} :
    ∀ (ops : List WOp) (s s1 : WState), WInv total s →
      runOps total s ops = some s1 → WInv total s1 := by
  intro ops
  induction ops with
  | nil => intro s s1 h hr; obtain rfl := Option.some.inj hr; exact h
  | cons op rest ih =>
      intro s s1 h hr
      simp only [runOps, Option.bind_eq_bind] at hr
      rcases Option.bind_eq_some.mp hr with ⟨smid, hstep, hrest⟩
      exact ih smid s1 (winv_step h hstep) hrest

/-! ## Claim C1 -/

/-- C1: for every submission, `submit` fails with `InvalidRequest`
(so no job is created) whenever `record_count` is outside the
configured [min, max] bound of 100 to 1,000,000; a `record_count` equal
to the configured minimum or maximum succeeds, and one below the
minimum or above the maximum fails. -/
theorem submit_record_count_bounds :
    (∀ (dataType : String) (count : Nat),
        submit defaultConfiguration dataType count "csv" =
          if 100 ≤ count ∧ count ≤ 1000000 then
            Except.ok (mkJob dataType count "csv")
          else Except.error SubmitError.InvalidRequest) ∧
    (submit defaultConfiguration "user" 100 "csv").isOk = true ∧
    (submit defaultConfiguration "user" 1000000 "csv").isOk = true ∧
    submit defaultConfiguration "user" 99 "csv" =
      Except.error SubmitError.InvalidRequest ∧
    submit defaultConfiguration "user" 1000001 "csv" =
      Except.error SubmitError.InvalidRequest := by
  refine ⟨?_, rfl, rfl, rfl, rfl⟩
  intro dataType count
  simp only [submit, defaultConfiguration]
  rcases Nat.lt_or_ge count 100 with h1 | h1
  · rw [if_pos h1, if_neg (by omega)]
  · rw [if_neg (Nat.not_lt.mpr h1)]
    rcases Nat.lt_or_ge 1000000 count with h2 | h2
    · rw [if_pos h2, if_neg (by omega)]
    · rw [if_neg (Nat.not_lt.mpr h2),
        if_pos (by decide : isRecognizedFormat "csv" = true),
        if_pos (by omega : 100 ≤ count ∧ count ≤ 1000000)]

/-! ## Claim C2 -/

/-- C2: the job status only moves along the lifecycle transitions
(`pending → queued → processing → {completed | failed}`, with the
spec's collapsed `pending → processing` admission and the `cancel`
edges); a job in a terminal state (`completed` or `failed`) admits no
further transition, and any illegal transition, such as
`completed → processing`, is rejected with `InvalidTransition`. -/
theorem job_status_lifecycle :
    (∀ (j : Job) (t : JobStatus),
        j.status = JobStatus.completed ∨ j.status = JobStatus.failed →
        transition j t = Except.error TransitionError.InvalidTransition) ∧
    (∀ (j : Job), j.status = JobStatus.completed →
        transition j JobStatus.processing =
          Except.error TransitionError.InvalidTransition) ∧
    (∀ s t, allowedTransition s t = true →
        (s = JobStatus.pending ∧
          (t = JobStatus.queued ∨ t = JobStatus.processing ∨
            t = JobStatus.cancelled)) ∨
        (s = JobStatus.queued ∧
          (t = JobStatus.processing ∨ t = JobStatus.cancelled)) ∨
        (s = JobStatus.processing ∧
          (t = JobStatus.completed ∨ t = JobStatus.failed ∨
            t = JobStatus.cancelled))) := by
  refine ⟨?_, ?_, fun s t => by cases s <;> cases t <;> decide⟩
  · intro j t h
    have hfalse : allowedTransition j.status t = false := by
      rcases h with h | h <;> rw [h] <;> cases t <;> rfl
    simp [transition, hfalse]
  · intro j h
    simp [transition, h, allowedTransition]

/-- Witness for C2: a concrete completed job rejects the
`completed → processing` transition with `InvalidTransition`, and a
concrete failed job rejects moving back to `queued`. -/
theorem job_status_lifecycle_witness :
    transition doneJob JobStatus.processing =
      Except.error TransitionError.InvalidTransition ∧
    transition { doneJob with status := JobStatus.failed } JobStatus.queued =
      Except.error TransitionError.InvalidTransition :=
  ⟨job_status_lifecycle.2.1 doneJob rfl,
   job_status_lifecycle.1 { doneJob with status := JobStatus.failed }
     JobStatus.queued (Or.inr rfl)⟩

/-! ## Claim C3 -/

theorem workerRun_no_cancel (art : Artifact) :
    ∀ (n i : Nat), workerRun (fun _ => false) art n i =
      (JobStatus.completed, some art) := by
  intro n
  induction n with
  | zero => intro i; rfl
  | succ m ih => intro i; simpa [workerRun] using ih (i + 1)

/-- C3: the artifact of a successfully completed job holds exactly the
requested number of records: the CSV artifact for `count` records has
`count` data rows after its single header row, the header is the
schema's field names in declared order, an uncancelled worker run
completes with exactly that artifact, and in particular a completed CSV
job for 500 person records yields 500 data rows plus one header row
with the person schema's field names in declared order. -/
theorem completed_artifact_exact_count :
    (∀ (sch : Schema) (count seed : Nat),
        ((writeCSV sch (generate sch count seed)).drop 1).length = count) ∧
    (∀ (sch : Schema) (records : List Record),
        (writeCSV sch records).head? = some (csvHeader sch)) ∧
    (∀ (sch : Schema) (count seed n i : Nat),
        workerRun (fun _ => false)
            (writeCSV sch (generate sch count seed)) n i =
          (JobStatus.completed,
           some (writeCSV sch (generate sch count seed)))) ∧
    (∀ seed : Nat,
        (writeCSV personSchema (generate personSchema 500 seed)).length =
          501 ∧
        (writeCSV personSchema (generate personSchema 500 seed)).head? =
          some ("id,first_name,last_name,full_name,email,phone," ++
            "date_of_birth,age,gender,street_address,city,state," ++
            "postal_code,country,username,job_title,company,salary," ++
            "created_at,is_active")) := by
  refine ⟨?_, ?_, ?_, ?_⟩
  · intro sch count seed
    simp [writeCSV, generate]
  · intro sch records
    rfl
  · intro sch count seed n i
    exact workerRun_no_cancel _ n i
  · intro seed
    constructor
    · simp [writeCSV, generate]
    · rfl

/-! ## Claim C4 -/

/-- C4: along any legal run from creation, a job's progress is 0 while
the status is `pending` or `queued`, is fixed at 100 once `completed`,
never decreases across any step, and only a worker write/finish step on
a `processing` job ever changes it. -/
theorem progress_field_discipline :
    ∀ (total : Nat) (ops : List WOp) (s : WState),
      runOps total initialWState ops = some s →
      (((s.status = JobStatus.pending ∨ s.status = JobStatus.queued) →
          s.progress = 0) ∧
       (s.status = JobStatus.completed → s.progress = 100) ∧
       (∀ (op : WOp) (s1 : WState), step total s op = some s1 →
          s.progress ≤ s1.progress ∧
          (s1.progress ≠ s.progress →
            s.status = JobStatus.processing ∧
            ((∃ k, op = WOp.writeChunk k) ∨ op = WOp.finish)))) := by
  intro total ops s hrun
  have hinv : WInv total s :=
    winv_runOps ops initialWState s (winv_initial total) hrun
  obtain ⟨hw, hz, hp⟩ := hinv
  refine ⟨?_, ?_, ?_⟩
  · intro h
    have hw0 := hz h
    have hp1 : s.progress = progressOf s.written total := by
      rcases h with h | h <;> rw [h] at hp <;> simpa using hp
    rw [hp1, hw0, progressOf_zero]
  · intro h
    rw [h] at hp
    simpa using hp
  · intro op s1 hs
    cases op <;> simp only [step] at hs
    case enqueue =>
      split at hs
      · obtain rfl := Option.some.inj hs
        exact ⟨Nat.le_refl _, fun hne => by simp at hne⟩
      · exact absurd hs (by simp)
    case start =>
      split at hs
      · obtain rfl := Option.some.inj hs
        exact ⟨Nat.le_refl _, fun hne => by simp at hne⟩
      · exact absurd hs (by simp)
    case writeChunk k =>
      split at hs
      · obtain rfl := Option.some.inj hs
        rename_i hcond
        have hp1 : s.progress = progressOf s.written total := by
          rw [hcond.1] at hp
          simpa using hp
        refine ⟨?_, fun _ => ⟨hcond.1, Or.inl ⟨k, rfl⟩⟩⟩
        rw [hp1]
        exact progressOf_mono total (Nat.le_add_right _ _)
      · exact absurd hs (by simp)
    case finish =>
      split at hs
      · obtain rfl := Option.some.inj hs
        rename_i hcond
        have hp1 : s.progress = progressOf s.written total := by
          rw [hcond.1] at hp
          simpa using hp
        refine ⟨?_, fun _ => ⟨hcond.1, Or.inr rfl⟩⟩
        rw [hp1]
        simpa using progressOf_le_100 hw
      · exact absurd hs (by simp)
    case failJob =>
      split at hs
      · obtain rfl := Option.some.inj hs
        exact ⟨Nat.le_refl _, fun hne => by simp at hne⟩
      · exact absurd hs (by simp)
    case cancelJob =>
      split at hs
      · obtain rfl := Option.some.inj hs
        exact ⟨Nat.le_refl _, fun hne => by simp at hne⟩
      · exact absurd hs (by simp)

/-- Witness for C4: along the concrete run
enqueue, start, write 2, write 2, finish with requested count 4, the
completed state has progress 100; and after enqueue, start, write 2 the
processing state's progress does not decrease on the next chunk. -/
theorem progress_field_discipline_witness :
    (WState.mk JobStatus.completed 4 100).progress = 100 ∧
    (WState.mk JobStatus.processing 2 50).progress ≤
      (WState.mk JobStatus.processing 4 100).progress :=
  ⟨(progress_field_discipline 4
      [WOp.enqueue, WOp.start, WOp.writeChunk 2, WOp.writeChunk 2, WOp.finish]
      (WState.mk JobStatus.completed 4 100) rfl).2.1 rfl,
   ((progress_field_discipline 4 [WOp.enqueue, WOp.start, WOp.writeChunk 2]
      (WState.mk JobStatus.processing 2 50) rfl).2.2 (WOp.writeChunk 2)
      (WState.mk JobStatus.processing 4 100) rfl).1⟩

/-! ## Claim C5 -/

/-- C5: `fetch_artifact` fails with `NotReady` whenever the job is not
`completed`, and with `Gone` when the artifact was swept by Retention;
the sweep never deletes or alters any job record, so `get_status` on a
swept job still reports `completed` with the job's progress. -/
theorem fetch_artifact_not_ready_gone :
    ∀ (st : SystemState) (id : Nat) (j : Job) (expired : Nat → Bool),
      st.jobs id = some j →
      ((j.status ≠ JobStatus.completed →
          fetchArtifact st id = Except.error FetchError.NotReady) ∧
       (j.status = JobStatus.completed → expired id = true →
          fetchArtifact (sweep st expired) id = Except.error FetchError.Gone) ∧
       (sweep st expired).jobs = st.jobs ∧
       getStatus (sweep st expired) id = getStatus st id ∧
       (j.status = JobStatus.completed →
          getStatus (sweep st expired) id =
            Except.ok (JobStatus.completed, j.progress))) := by
  intro st id j expired hj
  refine ⟨?_, ?_, rfl, rfl, ?_⟩
  · intro hst
    simp [fetchArtifact, hj, hst]
  · intro hst hex
    simp [fetchArtifact, sweep, hj, hst, hex]
  · intro hst
    simp [getStatus, sweep, hj, hst]

/-- Witness for C5: in the concrete persisted state, fetching the
processing job yields `NotReady`; after a sweep that expires
everything, fetching the completed job yields `Gone` while its status
still polls as `completed` with progress 100. -/
theorem fetch_artifact_not_ready_gone_witness :
    fetchArtifact sampleState 2 = Except.error FetchError.NotReady ∧
    fetchArtifact (sweep sampleState fun _ => true) 1 =
      Except.error FetchError.Gone ∧
    getStatus (sweep sampleState fun _ => true) 1 =
      Except.ok (JobStatus.completed, 100) :=
  ⟨(fetch_artifact_not_ready_gone sampleState 2 runningJob (fun _ => true)
      rfl).1 (by decide),
   (fetch_artifact_not_ready_gone sampleState 1 doneJob (fun _ => true)
      rfl).2.1 rfl rfl,
   (fetch_artifact_not_ready_gone sampleState 1 doneJob (fun _ => true)
      rfl).2.2.2.2 rfl⟩

/-! ## Claim C6 -/

/-- C6: a `pending`/`queued`/`processing` job admits the `cancel`
transition to the terminal `cancelled` state; a worker observing the
cancellation flag at a chunk boundary aborts with the job `cancelled`
and no artifact created (partial output discarded); and
`fetch_artifact` on a cancelled job returns `NotReady`. -/
theorem cancellation_discipline :
    (∀ s : JobStatus,
        (s = JobStatus.pending ∨ s = JobStatus.queued ∨
          s = JobStatus.processing) →
        allowedTransition s JobStatus.cancelled = true) ∧
    (∀ t : JobStatus, allowedTransition JobStatus.cancelled t = false) ∧
    (∀ (cancelAt : Nat → Bool) (art : Artifact) (n i : Nat),
        (∀ a b, a ≤ b → cancelAt a = true → cancelAt b = true) →
        (∃ j, j < n ∧ cancelAt (i + j) = true) →
        workerRun cancelAt art n i = (JobStatus.cancelled, none)) ∧
    (∀ (st : SystemState) (id : Nat) (j : Job),
        st.jobs id = some j → j.status = JobStatus.cancelled →
        fetchArtifact st id = Except.error FetchError.NotReady) := by
  refine ⟨fun s h => by rcases h with h | h | h <;> rw [h] <;> rfl,
    fun t => by cases t <;> rfl, ?_, ?_⟩
  · intro cancelAt art n
    induction n with
    | zero =>
        intro i _ hex
        obtain ⟨j, hj, _⟩ := hex
        exact absurd hj (Nat.not_lt_zero j)
    | succ m ih =>
        intro i hmono hex
        by_cases hc : cancelAt i = true
        · simp [workerRun, hc]
        · have hstep : workerRun cancelAt art (m + 1) i =
              workerRun cancelAt art m (i + 1) := by
            simp [workerRun, hc]
          rw [hstep]
          refine ih (i + 1) hmono ?_
          obtain ⟨j, hj, hcj⟩ := hex
          cases j with
          | zero => exact absurd hcj (by simpa using hc)
          | succ j1 =>
              refine ⟨j1, Nat.lt_of_succ_lt_succ hj, ?_⟩
              simpa [Nat.add_assoc, Nat.add_comm 1 j1] using hcj
  · intro st id j hj hst
    simp [fetchArtifact, hj, hst]

/-- Witness for C6: with a flag that turns on at boundary 2, a five
chunk run aborts cancelled with no artifact, and fetching the concrete
cancelled job in the sample state yields `NotReady`. -/
theorem cancellation_discipline_witness :
    workerRun (fun b => decide (2 ≤ b)) ["a,b", "1,2"] 5 0 =
      (JobStatus.cancelled, none) ∧
    fetchArtifact sampleState 3 = Except.error FetchError.NotReady :=
  ⟨cancellation_discipline.2.2.1 (fun b => decide (2 ≤ b)) ["a,b", "1,2"] 5 0
      (fun a b hab ha => by
        simp only [decide_eq_true_eq] at ha ⊢
        omega)
      ⟨2, by omega, by decide⟩,
   cancellation_discipline.2.2.2 sampleState 3 cancelledJob rfl rfl⟩

/-! ## Claim C7 -/

/-- C7: for every schema, count and seed, generating the sequence twice
from the same `(schema, seed)` yields an identical record sequence and
identical serialized bytes, and the record at any index `i < count` is
fully reproduced from `(schema, seed, index)` alone, so generation is
deterministic and restartable at an arbitrary offset. -/
theorem generator_deterministic_restartable :
    (∀ (sch : Schema) (count seed : Nat),
        generate sch count seed = generate sch count seed ∧
        writeCSV sch (generate sch count seed) =
          writeCSV sch (generate sch count seed)) ∧
    (∀ (sch : Schema) (count seed i : Nat), i < count →
        (generate sch count seed).get? i = some (genRecord sch seed i)) := by
  refine ⟨fun sch count seed => ⟨rfl, rfl⟩, ?_⟩
  intro sch count seed i hi
  simp only [generate, List.get?_eq_getElem?, List.getElem?_map,
    List.getElem?_range hi]
  rfl

/-- Witness for C7: the third record of a seven-seeded three-record
person run is exactly the record rebuilt from (schema, seed 7, index 2)
alone. -/
theorem generator_deterministic_restartable_witness :
    (generate personSchema 3 7).get? 2 = some (genRecord personSchema 7 2) :=
  generator_deterministic_restartable.2 personSchema 3 7 2 (by decide)

/-! ## Claim C8 -/

/-- C8 counterexample: the README documents `output_format` as "csv" or
"json" only, so a submission naming "sql" or "parquet" is rejected as
an unrecognized output format with `InvalidRequest`, contradicting the
claim that SQL and Parquet-like formats are accepted. -/
theorem sql_parquet_submissions_rejected :
    isRecognizedFormat "sql" = false ∧
    isRecognizedFormat "parquet" = false ∧
    submit defaultConfiguration "user" 1000 "sql" =
      Except.error SubmitError.InvalidRequest ∧
    submit defaultConfiguration "user" 1000 "parquet" =
      Except.error SubmitError.InvalidRequest :=
  ⟨rfl, rfl, rfl, rfl⟩

/-- C8 amended: the system accepts exactly the CSV and JSON output
encodings, with one Format Writer implementation per recognised format;
a submission naming "csv" or "json" is recognized, while other format
names (in particular "sql" and "parquet") are rejected as an
unrecognized `output_format`. -/
theorem recognized_output_formats :
    (∀ f : String, isRecognizedFormat f = (f == "csv" || f == "json")) ∧
    (∀ f : String, (formatWriter f).isSome = isRecognizedFormat f) ∧
    formatWriter "csv" = some writeCSV ∧
    formatWriter "json" = some writeJSON ∧
    (submit defaultConfiguration "user" 1000 "csv").isOk = true ∧
    (submit defaultConfiguration "user" 1000 "json").isOk = true := by
  refine ⟨?_, ?_, rfl, rfl, rfl, rfl⟩
  · intro f
    by_cases h1 : f = "csv" <;> by_cases h2 : f = "json" <;>
      simp [isRecognizedFormat, recognizedFormats, h1, h2]
  · intro f
    by_cases h1 : f = "csv"
    · subst h1; rfl
    · by_cases h2 : f = "json"
      · subst h2; rfl
      · simp [formatWriter, isRecognizedFormat, recognizedFormats, h1, h2]

/-! ## Claim C9 -/

/-- C9 counterexample: JavaScript bracket access walks the prototype
chain, so the status "constructor" (or "toString") selects the truthy
inherited `Object.prototype` member in both `JobCard` and `JobRow` —
`|| statusConfig.pending` does not fall back and the selected value is
not the pending style configuration, refuting the claim's universal
fallback for statuses outside the four known keys. -/
theorem status_style_prototype_cex :
    jobCardConfig "constructor" = Lookup.inheritedMember "constructor" ∧
    jobCardConfig "constructor" ≠ Lookup.style cardPendingStyle ∧
    jobRowConfig "toString" = Lookup.inheritedMember "toString" ∧
    jobRowConfig "toString" ≠ Lookup.style rowPendingStyle := by
  refine ⟨rfl, by decide, rfl, by decide⟩

/-- C9 amended: in both the job-history card and the recent-jobs row,
selecting the status configuration is total in the status string, and a
status outside completed/processing/pending/failed that does not name
an `Object.prototype` member falls back to the pending configuration;
the four known statuses select their own entries, while a status naming
an `Object.prototype` member (such as "constructor" or "toString")
selects the truthy inherited member instead of falling back. -/
theorem status_style_selection :
    (∀ s : String,
        s ≠ "completed" → s ≠ "processing" → s ≠ "pending" → s ≠ "failed" →
        objectPrototypeMembers.contains s = false →
        jobCardConfig s = Lookup.style cardPendingStyle ∧
        jobRowConfig s = Lookup.style rowPendingStyle) ∧
    (∀ s : String, s = "completed" ∨ s = "processing" ∨ s = "pending" ∨
        s = "failed" →
        (∃ c, jobCardStatusConfig s = Lookup.style c) ∧
        (∃ c, jobRowStatusConfig s = Lookup.style c)) ∧
    (∀ s ∈ objectPrototypeMembers,
        jobCardConfig s = Lookup.inheritedMember s ∧
        jobRowConfig s = Lookup.inheritedMember s) := by
  refine ⟨?_, ?_, by decide⟩
  · intro s h1 h2 h3 h4 h5
    have h6 : ¬ s ∈ objectPrototypeMembers := by simpa using h5
    constructor
    · simp [jobCardConfig, jobCardStatusConfig, h1, h2, h3, h4, h6]
    · simp [jobRowConfig, jobRowStatusConfig, h1, h2, h3, h4, h6]
  · intro s h
    rcases h with h | h | h | h <;> subst h <;>
      exact ⟨⟨_, rfl⟩, ⟨_, rfl⟩⟩

/-- Witness for C9: the unknown status "cancelled" (not an
`Object.prototype` member) renders with the pending configuration in
both components, while "constructor" selects the inherited member in
both. -/
theorem status_style_selection_witness :
    (jobCardConfig "cancelled" = Lookup.style cardPendingStyle ∧
      jobRowConfig "cancelled" = Lookup.style rowPendingStyle) ∧
    (jobCardConfig "constructor" = Lookup.inheritedMember "constructor" ∧
      jobRowConfig "constructor" = Lookup.inheritedMember "constructor") :=
  ⟨status_style_selection.1 "cancelled" (by decide) (by decide) (by decide)
      (by decide) (by decide),
   status_style_selection.2.2 "constructor" (by decide)⟩

/-! ## Claim C10 -/

/-- C10 counterexample: in the editor state with an empty name and a
schema text that does not parse as JSON, `handleSave` returns early at
the name check: no request is sent (as the claim says) but no
validation error is recorded either — `validationError` stays `none` —
contradicting the claim that whenever the schema text is not valid
JSON the editor state records a validation error. -/
theorem handleSave_empty_name_records_no_error :
    parseNullOnly "not json" = none ∧
    (handleSave parseNullOnly
        { name := "", description := "", dataType := "users",
          schema := "not json", validationError := none }).request = none ∧
    (handleSave parseNullOnly
        { name := "", description := "", dataType := "users",
          schema := "not json", validationError := none
        }).state.validationError = none :=
  ⟨rfl, rfl, rfl⟩

/-- C10 amended: `handleSave` issues a `createTemplate` request exactly
when the trimmed name is non-empty and the schema text parses as JSON
(and then with the payload built from the editor state); when the
trimmed name is non-empty and the schema text is not valid JSON, no
request is sent and the state records the validation error "Invalid
JSON syntax"; with an empty trimmed name it returns early with no
request and the state unchanged. -/
theorem handleSave_request_discipline :
    ∀ (α : Type) (parseJSON : String → Option α) (st : EditorState),
      ((handleSave parseJSON st).request.isSome =
        (!(jsTrim st.name == "") && (parseJSON st.schema).isSome)) ∧
      (jsTrim st.name ≠ "" → parseJSON st.schema = none →
        (handleSave parseJSON st).request = none ∧
        (handleSave parseJSON st).state.validationError =
          some "Invalid JSON syntax") ∧
      (∀ p, jsTrim st.name ≠ "" → parseJSON st.schema = some p →
        (handleSave parseJSON st).request =
          some { name := st.name, description := st.description,
                 dataType := st.dataType, schema := p }) ∧
      (jsTrim st.name = "" →
        (handleSave parseJSON st).request = none ∧
        (handleSave parseJSON st).state = st) := by
  intro α parseJSON st
  refine ⟨?_, ?_, ?_, ?_⟩
  · by_cases h : jsTrim st.name = ""
    · simp [handleSave, h]
    · cases hp : parseJSON st.schema <;> simp [handleSave, h, hp]
  · intro h hp
    simp [handleSave, h, hp]
  · intro p h hp
    simp [handleSave, h, hp]
  · intro h
    simp [handleSave, h]

/-- Witness for C10: with the stand-in parser, a named template whose
schema is the text "null" issues the request with its payload, and a
named template with a malformed schema records the validation error
without a request. -/
theorem handleSave_request_discipline_witness :
    (handleSave parseNullOnly
        { name := "My Template", description := "d", dataType := "users",
          schema := "null", validationError := none }).request =
      some { name := "My Template", description := "d", dataType := "users",
             schema := () } ∧
    (handleSave parseNullOnly
        { name := "My Template", description := "d", dataType := "users",
          schema := "oops", validationError := none
        }).state.validationError = some "Invalid JSON syntax" :=
  ⟨(handleSave_request_discipline Unit parseNullOnly
      { name := "My Template", description := "d", dataType := "users",
        schema := "null", validationError := none }).2.2.1 () (by decide) rfl,
   ((handleSave_request_discipline Unit parseNullOnly
      { name := "My Template", description := "d", dataType := "users",
        schema := "oops", validationError := none }).2.1 (by decide) rfl).2⟩

end SynthDataGen
